import Mathlib

/-!
Verification of the withings-exporter authenticated sync engine.

Shallow embedding of the repository's Python sources:
* `api_client.py` — vendor envelope classification and the rate-limit
  retry loop of `WithingsAPIClient._make_request`;
* `oauth_client.py` — the `OAuthToken` model, expiry check, and the
  token exchange / refresh response handling;
* `storage.py` — the `sync_state` cursor table (`INSERT OR REPLACE`
  keyed by `data_type`);
* `fetcher.py` — measurement offset-pagination, heart-rate extraction,
  date-chunking for activity/sleep, and per-type error absorption.

Machine integers are modelled as `Int`/`Nat` (Python integers are
unbounded), wall-clock readings (`time.time()`) are passed explicitly,
and HTTP traffic is abstracted as the sequence of vendor responses the
code would observe.
-/

namespace WithingsExporter

/-! ### api_client.py: envelope classification and rate-limit retry -/

/-- Errors raised by the transport layer (api_client.py:21-58):
`WithingsAuthError`, `WithingsRateLimitError` (with its `retry_after`
field, default 60), and the base `WithingsAPIError`. -/
inductive ApiError where
  | authError (status : Int) (message : String)
  | rateLimitError (retry_after : Int)
  | apiError (status : Int) (message : String)
  deriving DecidableEq

/-- Model of `WithingsAPIClient.STATUS_MESSAGES` (api_client.py:65-80). -/
def STATUS_MESSAGES : Int → Option String
  | 0 => some "Success"
  | 100 => some "The hash is missing, invalid, or does not match the provided email"
  | 247 => some "User is deactivated"
  | 286 => some "No such subscription was found"
  | 293 => some "The callback URL is either absent or incorrect"
  | 294 => some "No such subscription could be deleted"
  | 304 => some "The comment is either absent or incorrect"
  | 305 => some "Too many notifications are already set"
  | 328 => some "User is unauthorized"
  | 342 => some "Signature is wrong"
  | 343 => some "Wrong Notification Callback Url"
  | 601 => some "Too Many Requests"
  | 2554 => some "Unknown action"
  | 2555 => some "An unknown error occurred"
  | _ => none

/-- Reading of the envelope's status field: `result.get('status', -1)`
(api_client.py:138), where `none` stands for a missing field. -/
def envStatus (status : Option Int) : Int := status.getD (-1)

deriving instance DecidableEq for Except

/-- Observable trace of one `_make_request` call: how many HTTP requests
were issued, the `time.sleep` durations in order, and the outcome. -/
structure RequestTrace where
  requests : Nat
  sleeps : List Nat
  result : Except ApiError Unit
  deriving DecidableEq

/-- The envelope-status dispatch and rate-limit retry recursion of
`WithingsAPIClient._make_request` (api_client.py:126-161).
`envelope i` is the status field of the response to the attempt with
`retry_count = i` (attempts index the recursion depth, starting at 0).
A successful unwrap is recorded as `Except.ok ()`; the body payload and
the HTTP-transport failure arm (api_client.py:163-165, which wraps
`requests` exceptions as `WithingsAPIError(-1, ...)` and never retries)
do not interact with the retry policy. -/
def makeRequest (envelope : Nat → Option Int) (retry_count : Nat) : RequestTrace :=
  let status := envStatus (envelope retry_count)
  if status = 0 then
    { requests := 1, sleeps := [], result := .ok () }
  else if status = 401 ∨ status = 328 ∨ status = 2554 then
    { requests := 1, sleeps := [],
      result := .error (.authError status ((STATUS_MESSAGES status).getD "Authentication failed")) }
  else if status = 601 then
    if h : retry_count < 3 then
      let wait_time := min (60 * 2 ^ retry_count) 300
      let rest := makeRequest envelope (retry_count + 1)
      { requests := rest.requests + 1, sleeps := wait_time :: rest.sleeps,
        result := rest.result }
    else
      { requests := 1, sleeps := [], result := .error (.rateLimitError 60) }
  else
    { requests := 1, sleeps := [],
      result := .error (.apiError status
        ((STATUS_MESSAGES status).getD ("Unknown error (status " ++ toString status ++ ")"))) }
termination_by 4 - retry_count
decreasing_by omega

/-! ### oauth_client.py: token model and lifecycle -/

/-- Model of the `OAuthToken` dataclass (oauth_client.py:35-45). -/
structure OAuthToken where
  access_token : String
  refresh_token : String
  token_type : String
  expires_in : Int
  token_expiry : Int
  userid : Option Int
  scope : Option String
  deriving DecidableEq

/-- A parsed token payload (the dict passed to `OAuthToken.from_dict`);
`none` stands for a missing key. `access_token` and `refresh_token` are
accessed with `data['access_token']` / `data['refresh_token']`, so they
are mandatory. -/
structure TokenBody where
  access_token : String
  refresh_token : String
  token_type : Option String
  expires_in : Option Int
  token_expiry : Option Int
  userid : Option Int
  scope : Option String
  deriving DecidableEq

/-- Model of `OAuthToken.from_dict` (oauth_client.py:47-65); `now` stands
for the `time.time()` reading used for the `token_expiry` default. -/
def OAuthToken.from_dict (now : Int) (data : TokenBody) : OAuthToken :=
  { access_token := data.access_token
    refresh_token := data.refresh_token
    token_type := data.token_type.getD "Bearer"
    expires_in := data.expires_in.getD 10800
    token_expiry := data.token_expiry.getD (now + data.expires_in.getD 10800)
    userid := data.userid
    scope := data.scope }

/-- Model of `OAuthToken.is_expired` (oauth_client.py:83-92); `now` stands
for `int(time.time())` and `buffer_seconds` defaults to 300 at the call
sites modelled here. -/
def OAuthToken.is_expired (t : OAuthToken) (now : Int) (buffer_seconds : Int) : Bool :=
  now ≥ t.token_expiry - buffer_seconds

/-- Token construction step of `exchange_code_for_token`
(oauth_client.py:214-218): `body['token_expiry'] = int(time.time()) +
body.get('expires_in', 10800)` followed by `OAuthToken.from_dict(body)`. -/
def exchangeTokenFromBody (now : Int) (body : TokenBody) : OAuthToken :=
  OAuthToken.from_dict now { body with token_expiry := some (now + body.expires_in.getD 10800) }

/-- Python truthiness of the optional integer `userid`: `None` and `0`
are falsy, every other integer is truthy. -/
def truthyInt : Option Int → Bool
  | none => false
  | some n => decide (n ≠ 0)

/-- Token replacement step of `refresh_access_token`
(oauth_client.py:273-285): recompute `token_expiry`, build the new token
from the response body, then `if not self.token.userid:
self.token.userid = old_userid`. -/
def refreshTokenUpdate (now : Int) (old : OAuthToken) (body : TokenBody) : OAuthToken :=
  let t := OAuthToken.from_dict now
    { body with token_expiry := some (now + body.expires_in.getD 10800) }
  if truthyInt t.userid then t else { t with userid := old.userid }

/-- The vendor's token-endpoint envelope as decoded from JSON:
`{'status': ..., 'error': ..., 'body': ...}`, each key possibly
missing. -/
structure OAuthEnvelope where
  status : Option Int
  error : Option String
  body : Option TokenBody
  deriving DecidableEq

/-- An HTTP body: either parseable JSON (already decoded) or raw
non-JSON text that `response.json()` fails on. -/
inductive HttpBody where
  | jsonBody (envelope : OAuthEnvelope)
  | nonJSON (text : String)
  deriving DecidableEq

/-- An HTTP response from `requests.post` on the token endpoint. -/
structure HttpResponse where
  status_code : Int
  body : HttpBody
  deriving DecidableEq

/-- The exceptions the token exchange / refresh paths can raise:
`requests.HTTPError` (from `raise_for_status`),
`requests.exceptions.JSONDecodeError` (from `response.json()`),
`KeyError` (from `result['body']`), and `WithingsOAuthError`. -/
inductive OAuthFailure where
  | httpError (status_code : Int)
  | jsonDecodeError
  | keyError (key : String)
  | oauthError (status_code : Int) (message : String)
  deriving DecidableEq

/-- True exactly for the `WithingsOAuthError` constructor. -/
def OAuthFailure.isOAuthError : OAuthFailure → Bool
  | .oauthError _ _ => true
  | _ => false

/-- Model of `response.raise_for_status()`: raises `requests.HTTPError`
for 4xx and 5xx status codes. -/
def raise_for_status (r : HttpResponse) : Except OAuthFailure Unit :=
  if 400 ≤ r.status_code ∧ r.status_code < 600 then .error (.httpError r.status_code)
  else .ok ()

/-- Model of `response.json()`: the decoded envelope, or a raised
`JSONDecodeError` on a non-JSON body. -/
def response_json (r : HttpResponse) : Except OAuthFailure OAuthEnvelope :=
  match r.body with
  | .jsonBody envelope => .ok envelope
  | .nonJSON _ => .error .jsonDecodeError

/-- Response handling of `exchange_code_for_token`
(oauth_client.py:190-222), from `response.raise_for_status()` onward;
`now` stands for `int(time.time())`. The `try/except
JSONDecodeError` arm becomes the match on `response_json`. -/
def exchange_code_for_token (now : Int) (r : HttpResponse) : Except OAuthFailure OAuthToken :=
  match raise_for_status r with
  | .error e => .error e
  | .ok _ =>
    match response_json r with
    | .error _ => .error (.oauthError r.status_code "Non-JSON response from token endpoint")
    | .ok result =>
      if result.status ≠ some 0 then
        .error (.oauthError (result.status.getD (-1)) (result.error.getD "Unknown error"))
      else
        match result.body with
        | none => .error (.keyError "body")
        | some body => .ok (exchangeTokenFromBody now body)

/-- Response handling of `refresh_access_token`
(oauth_client.py:224-285): the guard `if not self.token or not
self.token.refresh_token` (empty string is falsy), then the same
envelope handling as the exchange with error default 'Token refresh
failed', then the userid-preserving token replacement. -/
def refresh_access_token (now : Int) (token : Option OAuthToken) (r : HttpResponse) :
    Except OAuthFailure OAuthToken :=
  match token with
  | none => .error (.oauthError 0 "No refresh token available")
  | some old =>
    if old.refresh_token = "" then
      .error (.oauthError 0 "No refresh token available")
    else
      match raise_for_status r with
      | .error e => .error e
      | .ok _ =>
        match response_json r with
        | .error _ => .error (.oauthError r.status_code "Non-JSON response from token endpoint")
        | .ok result =>
          if result.status ≠ some 0 then
            .error (.oauthError (result.status.getD (-1)) (result.error.getD "Token refresh failed"))
          else
            match result.body with
            | none => .error (.keyError "body")
            | some body => .ok (refreshTokenUpdate now old body)

/-! ### storage.py: the sync_state cursor table -/

/-- One row of the `sync_state` table (storage.py:149-155), restricted
to the columns the spec's cursor talks about; the `last_sync` and
`updated_at` wall-clock columns are omitted. Timestamps are POSIX
seconds. -/
structure SyncRow where
  last_data_timestamp : Option Int
  status : String
  deriving DecidableEq

/-- The `sync_state` table, keyed by its PRIMARY KEY `data_type`. -/
def SyncState := String → Option SyncRow

/-- The all-empty table of a fresh database. -/
def emptySyncState : SyncState := fun _ => none

/-- Model of `HealthDataStorage.update_sync_state` (storage.py:297-318):
`INSERT OR REPLACE` on the primary key `data_type` replaces the whole
row, so a `None` `last_data_timestamp` argument stores NULL. -/
def update_sync_state (st : SyncState) (data_type : String)
    (last_data_timestamp : Option Int) (status : String) : SyncState :=
  fun k =>
    if k = data_type then some { last_data_timestamp := last_data_timestamp, status := status }
    else st k

/-! ### fetcher.py: per-type error absorption (fetch_all_data) -/

/-- A whole-type fetch body: the code inside the `try` block of
`fetch_measurements` / `fetch_activity` / `fetch_sleep`. It transforms
the sync state (effects performed before a failure persist) and may end
with a raised exception value of type `ε` (Python's `Exception`
hierarchy, which both `except WithingsAPIError` and `except Exception`
arms of fetcher.py:192-197, 277-279, 387-389 catch). -/
def FetchBody (ε : Type) := SyncState → SyncState × Option ε

/-- The try/except wrapper shared by the three fetch methods
(fetcher.py:104-197, 209-279, 291-389): a raised exception is caught,
logged, and recorded as cursor status 'error'; the wrapper always
returns normally (its type has no exception channel). -/
def fetchGuarded {ε : Type} (data_type : String) (body : FetchBody ε)
    (st : SyncState) : SyncState :=
  let res := body st
  match res.2 with
  | none => res.1
  | some _ => update_sync_state res.1 data_type none "error"

/-- Model of `fetch_all_data` (fetcher.py:53-90): each enabled data type
is fetched in order through its guarded fetch. (The `heart_rate` flag
only selects the `store_heart_rate` argument baked into the
measurements body and is not part of the sequencing.) -/
def fetch_all_data {ε : Type} (measBody actBody sleepBody : FetchBody ε)
    (measurements activity sleep : Bool) (st : SyncState) : SyncState :=
  let st1 := if measurements then fetchGuarded "measurements" measBody st else st
  let st2 := if activity then fetchGuarded "activity" actBody st1 else st1
  if sleep then fetchGuarded "sleep" sleepBody st2 else st2

/-! ### fetcher.py: cursor update on an empty fetch -/

/-- A normalized activity record (fetcher.py:247-259), restricted to
the `date` field the cursor update reads (`max(a['date'] for a in
all_activities)`); dates as POSIX timestamps of midnight. -/
structure ActivityRec where
  date : Int
  deriving DecidableEq

/-- A normalized sleep session (fetcher.py:354-369), restricted to the
`start_time` field the cursor update reads. -/
structure SleepRec where
  start_time : Int
  deriving DecidableEq

/-- Store-and-update epilogue of `fetch_activity` (fetcher.py:267-275):
nonempty fetches store the batch and write the max date as the cursor;
an empty fetch calls `update_sync_state('activity', status='success')`,
whose default `last_data_timestamp=None` replaces the row with NULL. -/
def finalizeActivity (st : SyncState) (all_activities : List ActivityRec) : SyncState :=
  if all_activities.isEmpty then update_sync_state st "activity" none "success"
  else update_sync_state st "activity" (all_activities.map ActivityRec.date).max? "success"

/-- Store-and-update epilogue of `fetch_sleep` (fetcher.py:377-385). -/
def finalizeSleep (st : SyncState) (all_sleep_sessions : List SleepRec) : SyncState :=
  if all_sleep_sessions.isEmpty then update_sync_state st "sleep" none "success"
  else update_sync_state st "sleep" (all_sleep_sessions.map SleepRec.start_time).max? "success"

/-! ### fetcher.py: measurement processing and offset pagination -/

/-- One vendor measure: `{'type': ..., 'value': ..., 'unit': ...}`
(mantissa/power-of-ten encoding). -/
structure Measure where
  type : Int
  value : Int
  unit : Int
  deriving DecidableEq

/-- One vendor measure group from `measuregrps` (fetcher.py:134-137):
`date` is a Unix timestamp, `deviceid` and `grpid` are read with
`.get` and may be missing. -/
structure MeasureGroup where
  date : Int
  deviceid : Option String
  grpid : Option Int
  measures : List Measure
  deriving DecidableEq

/-- The `raw_data` dict built at fetcher.py:152-157. -/
structure RawMeasure where
  type : Int
  value : Int
  unit : Int
  grpid : Option Int
  deriving DecidableEq

/-- A normalized measurement record (fetcher.py:146-158). The scaled
value `value * 10 ** unit` is modelled exactly in `ℚ`. -/
structure Measurement where
  timestamp : Int
  measure_type : String
  value : ℚ
  unit : String
  device_id : Option String
  raw_data : RawMeasure
  deriving DecidableEq

/-- A heart-rate sample staged at fetcher.py:161-167. -/
structure HeartRate where
  timestamp : Int
  heart_rate : ℚ
  device_id : Option String
  raw_data : RawMeasure
  deriving DecidableEq

/-- Model of `WithingsDataFetcher._get_measure_type_name` (fetcher.py:391-420). -/
def measure_type_name : Int → String
  | 1 => "weight"
  | 4 => "height"
  | 5 => "fat_free_mass"
  | 6 => "fat_ratio"
  | 8 => "fat_mass"
  | 9 => "diastolic_blood_pressure"
  | 10 => "systolic_blood_pressure"
  | 11 => "heart_rate"
  | 12 => "temperature"
  | 54 => "spo2"
  | 71 => "body_temperature"
  | 73 => "skin_temperature"
  | 76 => "muscle_mass"
  | 77 => "hydration"
  | 88 => "bone_mass"
  | 91 => "pulse_wave_velocity"
  | 123 => "vo2_max"
  | 155 => "vascular_age"
  | t => "unknown_" ++ toString t

/-- Model of `WithingsDataFetcher._get_measure_unit` (fetcher.py:422-451). -/
def measure_unit : Int → String
  | 1 => "kg"
  | 4 => "m"
  | 5 => "kg"
  | 6 => "%"
  | 8 => "kg"
  | 9 => "mmHg"
  | 10 => "mmHg"
  | 11 => "bpm"
  | 12 => "°C"
  | 54 => "%"
  | 71 => "°C"
  | 73 => "°C"
  | 76 => "kg"
  | 77 => "kg"
  | 88 => "kg"
  | 91 => "m/s"
  | 123 => "ml/min/kg"
  | 155 => "years"
  | _ => "unknown"

/-- Computation `real_value = measure['value'] * (10 ** measure['unit'])`
(fetcher.py:144), computed exactly in `ℚ`. -/
def real_value (m : Measure) : ℚ := (m.value : ℚ) * 10 ^ m.unit

/-- The measurement dict appended at fetcher.py:146-159. -/
def mkMeasurement (g : MeasureGroup) (m : Measure) : Measurement :=
  { timestamp := g.date
    measure_type := measure_type_name m.type
    value := real_value m
    unit := measure_unit m.type
    device_id := g.deviceid
    raw_data := { type := m.type, value := m.value, unit := m.unit, grpid := g.grpid } }

/-- The heart-rate dict appended at fetcher.py:162-167 (it reuses the
measurement's `raw_data`). -/
def mkHeartRate (g : MeasureGroup) (m : Measure) : HeartRate :=
  { timestamp := g.date
    heart_rate := real_value m
    device_id := g.deviceid
    raw_data := { type := m.type, value := m.value, unit := m.unit, grpid := g.grpid } }

/-- Working set of one `fetch_measurements` call: the staged
`measurements` and `heart_rates` lists and the running maximum
timestamp (fetcher.py:117-119). -/
structure FetchAcc where
  measurements : List Measurement
  heart_rates : List HeartRate
  last_timestamp : Option Int
  deriving DecidableEq

/-- Body of the inner measures loop (fetcher.py:139-170): stage the
measurement, stage a heart-rate sample when enabled and the vendor type
code is 11, and advance `last_timestamp` (`if not last_timestamp or
timestamp > last_timestamp`). -/
def processMeasure (store_heart_rate : Bool) (g : MeasureGroup) (m : Measure)
    (acc : FetchAcc) : FetchAcc :=
  let acc1 := { acc with measurements := acc.measurements ++ [mkMeasurement g m] }
  let acc2 :=
    if store_heart_rate ∧ m.type = 11 then
      { acc1 with heart_rates := acc1.heart_rates ++ [mkHeartRate g m] }
    else acc1
  { acc2 with
    last_timestamp :=
      match acc2.last_timestamp with
      | none => some g.date
      | some t => if g.date > t then some g.date else some t }

/-- The measures loop over one group (fetcher.py:139-170). -/
def processGroup (store_heart_rate : Bool) (acc : FetchAcc) (g : MeasureGroup) : FetchAcc :=
  g.measures.foldl (fun a m => processMeasure store_heart_rate g m a) acc

/-- The groups loop over one page (fetcher.py:134-170). -/
def processGroups (store_heart_rate : Bool) (acc : FetchAcc) (gs : List MeasureGroup) : FetchAcc :=
  gs.foldl (processGroup store_heart_rate) acc

/-- One page of the measurements endpoint as fetch_measurements reads
it: `result.get('measuregrps', [])`, the truthiness of
`result.get('more')` (missing means no more pages), and
`result.get('offset')` with `none` for a missing offset. -/
structure MeasuresResult where
  measuregrps : List MeasureGroup
  more : Bool
  offset : Option Nat
  deriving DecidableEq

/-- The offset-pagination loop of `fetch_measurements`
(fetcher.py:121-179). `pages i` is the vendor's response to the i-th
request (the code passes the previous response's offset along, so the
request sequence is a function of the response sequence). `i` counts
the requests already issued, `seen_offsets` collects the offsets used
so far (a Python set, kept as a duplicate-free list), and `fuel` bounds
the recursion depth of this embedding: `none` means the fuel ran out
while the loop would have continued. The returned pair is the final
working set and the total number of requests issued. -/
def measLoop (pages : Nat → MeasuresResult) (store_heart_rate : Bool) :
    Nat → Nat → List Nat → FetchAcc → Option (FetchAcc × Nat)
  | 0, _, _, _ => none
  | fuel + 1, i, seen_offsets, acc =>
    let result := pages i
    let acc := processGroups store_heart_rate acc result.measuregrps
    if result.more = false then some (acc, i + 1)
    else
      match result.offset with
      | none => some (acc, i + 1)
      | some o =>
        if o ∈ seen_offsets then some (acc, i + 1)
        else measLoop pages store_heart_rate fuel (i + 1) (o :: seen_offsets) acc

/-- Store-and-update epilogue of `fetch_measurements`
(fetcher.py:181-190): a nonempty fetch stores the staged batches and
writes the max timestamp as the cursor; an empty fetch calls
`update_sync_state('measurements', status='success')`. -/
def finalizeMeasurements (st : SyncState) (acc : FetchAcc) : SyncState :=
  if acc.measurements.isEmpty then update_sync_state st "measurements" none "success"
  else update_sync_state st "measurements" acc.last_timestamp "success"

/-! ### fetcher.py: date-chunking for activity and sleep -/

/-- Model of `WithingsDataFetcher.MAX_DAYS_PER_REQUEST` (fetcher.py:18). -/
def MAX_DAYS_PER_REQUEST : Int := 200

/-- Seconds per day: `timedelta(days=n)` equals `n * 86400` seconds. -/
def daySeconds : Int := 86400

/-- The date-chunking loop shared verbatim by `fetch_activity`
(fetcher.py:228-265) and `fetch_sleep` (fetcher.py:331-375): while
`current_date < end_date`, take `chunk_end = min(current_date +
timedelta(days=200), end_date)`, issue one API call for
`[current_date, chunk_end]`, then set `current_date = chunk_end`.
Datetimes are POSIX timestamps (`Int` seconds); the returned list holds
the `(startdate, enddate)` pair of every chunk request, in order.
Chunk-level API errors do not alter the chunk arithmetic (the `except`
arm at fetcher.py:262-263 / 372-373 only logs). -/
def chunkRanges (current_date end_date : Int) : List (Int × Int) :=
  if _h : current_date < end_date then
    (current_date, min (current_date + MAX_DAYS_PER_REQUEST * daySeconds) end_date) ::
      chunkRanges (min (current_date + MAX_DAYS_PER_REQUEST * daySeconds) end_date) end_date
  else []
termination_by (end_date - current_date).toNat
decreasing_by
  simp only [MAX_DAYS_PER_REQUEST, daySeconds]
  omega

/-- Abstraction of `strftime('%Y-%m-%d')` (fetcher.py:233-234,
335-336): the formatted string is determined by the timestamp's
calendar day, i.e. its floor-division by 86400 (equal timestamps format
to equal strings). -/
def strftime_ymd (t : Int) : Int := t.fdiv 86400

/-! ### Theorems -/

/-- C1: a request whose envelope status is 601 on every attempt sleeps
60s, 120s, 240s (each wait `min (60 * 2 ^ attempt) 300`), issues 4
requests total (3 retries), then raises `WithingsRateLimitError`; a
request whose first envelope status is 401, 328 or 2554 raises
`WithingsAuthError` at once, with a single request and no sleeps. -/
theorem make_request_retry_policy (envelope : Nat → Option Int) :
    ((∀ i, envStatus (envelope i) = 601) →
      makeRequest envelope 0 =
        { requests := 4, sleeps := [60, 120, 240], result := .error (.rateLimitError 60) } ∧
      ([60, 120, 240] : List Nat) =
        [min (60 * 2 ^ 0) 300, min (60 * 2 ^ 1) 300, min (60 * 2 ^ 2) 300]) ∧
    (∀ s : Int, envStatus (envelope 0) = s → s = 401 ∨ s = 328 ∨ s = 2554 →
      makeRequest envelope 0 =
        { requests := 1, sleeps := [],
          result := .error (.authError s ((STATUS_MESSAGES s).getD "Authentication failed")) }) := by
  constructor
  · intro h601
    have h3 : makeRequest envelope 3 =
        { requests := 1, sleeps := [], result := .error (.rateLimitError 60) } := by
      rw [makeRequest]
      simp [h601 3]
    have h2 : makeRequest envelope 2 =
        { requests := 2, sleeps := [240], result := .error (.rateLimitError 60) } := by
      rw [makeRequest]
      simp [h601 2, h3]
    have h1 : makeRequest envelope 1 =
        { requests := 3, sleeps := [120, 240], result := .error (.rateLimitError 60) } := by
      rw [makeRequest]
      simp [h601 1, h2]
    have h0 : makeRequest envelope 0 =
        { requests := 4, sleeps := [60, 120, 240], result := .error (.rateLimitError 60) } := by
      rw [makeRequest]
      simp [h601 0, h1]
    exact ⟨h0, by decide⟩
  · intro s hs hcase
    rw [makeRequest]
    have hne : s ≠ 0 := by rcases hcase with h | h | h <;> omega
    simp [hs, hne, hcase]

/-- Witness for C1 at the constant streams 601 and 401. -/
theorem make_request_retry_policy_witness :
    makeRequest (fun _ => some 601) 0 =
      { requests := 4, sleeps := [60, 120, 240], result := .error (.rateLimitError 60) } ∧
    makeRequest (fun _ => some 401) 0 =
      { requests := 1, sleeps := [],
        result := .error (.authError 401 ((STATUS_MESSAGES 401).getD "Authentication failed")) } :=
  ⟨((make_request_retry_policy (fun _ => some 601)).1 (fun _ => rfl)).1,
   (make_request_retry_policy (fun _ => some 401)).2 401 rfl (Or.inl rfl)⟩

/-- C2: a token issued at time `T` with `expires_in = E` (so
`token_expiry = T + E`) reports `is_expired` at time `now` with the
default 300s buffer exactly when `now ≥ T + E - 300`. -/
theorem is_expired_iff_now_past_expiry_buffer (T E now : Int) (body : TokenBody)
    (hE : body.expires_in = some E) :
    (exchangeTokenFromBody T body).is_expired now 300 = true ↔ now ≥ T + E - 300 := by
  simp [exchangeTokenFromBody, OAuthToken.from_dict, OAuthToken.is_expired, hE, ge_iff_le]

/-- Witness for C2 at `T = 1000`, `E = 10800`, `now = 11500`. -/
theorem is_expired_iff_now_past_expiry_buffer_witness :
    (exchangeTokenFromBody 1000
        { access_token := "a", refresh_token := "r", token_type := none,
          expires_in := some 10800, token_expiry := none, userid := none,
          scope := none }).is_expired 11500 300 = true ↔
      (11500 : Int) ≥ 1000 + 10800 - 300 :=
  is_expired_iff_now_past_expiry_buffer 1000 10800 11500 _ rfl

/-- C6 counterexample: the claim says a refresh response that contains a
userid is adopted, but a response carrying `userid = 0` is falsy in
Python (`if not self.token.userid`), so the old userid 7 is kept and the
new value 0 is discarded. -/
theorem refresh_userid_zero_counterexample :
    (refreshTokenUpdate 0
        { access_token := "a", refresh_token := "r", token_type := "Bearer",
          expires_in := 10800, token_expiry := 10800, userid := some 7, scope := none }
        { access_token := "a2", refresh_token := "r2", token_type := none,
          expires_in := some 10800, token_expiry := none, userid := some 0,
          scope := none }).userid = some 7 ∧
    ({ access_token := "a2", refresh_token := "r2", token_type := none,
       expires_in := some 10800, token_expiry := none, userid := some 0,
       scope := none } : TokenBody).userid = some 0 ∧
    (some 7 : Option Int) ≠ some 0 := by
  refine ⟨rfl, rfl, by decide⟩

/-- C6 amended: a refreshed token keeps the previously held userid when
the refresh response omits a userid or carries the falsy userid 0, and
adopts the response's userid whenever it is present and nonzero. -/
theorem refresh_userid_update (now : Int) (old : OAuthToken) (body : TokenBody) :
    ((body.userid = none ∨ body.userid = some 0) →
      (refreshTokenUpdate now old body).userid = old.userid) ∧
    (∀ u : Int, u ≠ 0 → body.userid = some u →
      (refreshTokenUpdate now old body).userid = some u) := by
  constructor
  · rintro (h | h) <;> simp [refreshTokenUpdate, OAuthToken.from_dict, truthyInt, h]
  · intro u hu h
    simp [refreshTokenUpdate, OAuthToken.from_dict, truthyInt, h, hu]

/-- Witness for C6 amended: a response omitting the userid keeps the
held userid 7, and a response carrying userid 9 adopts it. -/
theorem refresh_userid_update_witness :
    (refreshTokenUpdate 0
        { access_token := "a", refresh_token := "r", token_type := "Bearer",
          expires_in := 10800, token_expiry := 10800, userid := some 7, scope := none }
        { access_token := "a2", refresh_token := "r2", token_type := none,
          expires_in := some 10800, token_expiry := none, userid := none,
          scope := none }).userid = some 7 ∧
    (refreshTokenUpdate 0
        { access_token := "a", refresh_token := "r", token_type := "Bearer",
          expires_in := 10800, token_expiry := 10800, userid := some 7, scope := none }
        { access_token := "a2", refresh_token := "r2", token_type := none,
          expires_in := some 10800, token_expiry := none, userid := some 9,
          scope := none }).userid = some 9 :=
  ⟨(refresh_userid_update 0 _ _).1 (Or.inl rfl),
   (refresh_userid_update 0 _ _).2 9 (by decide) rfl⟩

/-- C7 counterexample: an HTTP 500 response with a non-JSON body makes
`exchange_code_for_token` raise `requests.HTTPError` from
`raise_for_status()` (which runs before JSON parsing), not the claimed
`WithingsOAuthError`. -/
theorem non_json_http_error_counterexample :
    exchange_code_for_token 0 { status_code := 500, body := .nonJSON "<html>error</html>" } =
      .error (.httpError 500) ∧
    OAuthFailure.isOAuthError (.httpError 500) = false :=
  ⟨rfl, rfl⟩

/-- C7 amended: for every response that passes `raise_for_status` (HTTP
status outside 400-599) whose body is not parseable JSON, both the
exchange and the refresh raise `WithingsOAuthError` with the message
"Non-JSON response from token endpoint"; and on no input does the
underlying `JSONDecodeError` escape either operation. -/
theorem non_json_raises_oauth_error (now : Int) (old : OAuthToken) (r : HttpResponse)
    (text : String) (hok : ¬(400 ≤ r.status_code ∧ r.status_code < 600))
    (hbody : r.body = .nonJSON text) (href : old.refresh_token ≠ "") :
    exchange_code_for_token now r =
      .error (.oauthError r.status_code "Non-JSON response from token endpoint") ∧
    refresh_access_token now (some old) r =
      .error (.oauthError r.status_code "Non-JSON response from token endpoint") ∧
    (∀ r' : HttpResponse, exchange_code_for_token now r' ≠ .error .jsonDecodeError) ∧
    (∀ (tok : Option OAuthToken) (r' : HttpResponse),
      refresh_access_token now tok r' ≠ .error .jsonDecodeError) := by
  refine ⟨?_, ?_, ?_, ?_⟩
  · simp [exchange_code_for_token, raise_for_status, response_json, hok, hbody]
  · simp [refresh_access_token, raise_for_status, response_json, hok, hbody, href]
  · intro r'
    by_cases hc : 400 ≤ r'.status_code ∧ r'.status_code < 600
    · simp [exchange_code_for_token, raise_for_status, hc]
    · cases hb : r'.body with
      | nonJSON t =>
        simp [exchange_code_for_token, raise_for_status, response_json, hc, hb]
      | jsonBody env =>
        by_cases hs : env.status = some 0
        · cases hbdy : env.body <;>
            simp [exchange_code_for_token, raise_for_status, response_json, hc, hb, hs, hbdy]
        · simp [exchange_code_for_token, raise_for_status, response_json, hc, hb, hs]
  · intro tok r'
    cases tok with
    | none => simp [refresh_access_token]
    | some old' =>
      by_cases hrt : old'.refresh_token = ""
      · simp [refresh_access_token, hrt]
      · by_cases hc : 400 ≤ r'.status_code ∧ r'.status_code < 600
        · simp [refresh_access_token, raise_for_status, hrt, hc]
        · cases hb : r'.body with
          | nonJSON t =>
            simp [refresh_access_token, raise_for_status, response_json, hrt, hc, hb]
          | jsonBody env =>
            by_cases hs : env.status = some 0
            · cases hbdy : env.body <;>
                simp [refresh_access_token, raise_for_status, response_json, hrt, hc, hb,
                  hs, hbdy]
            · simp [refresh_access_token, raise_for_status, response_json, hrt, hc, hb, hs]

/-- Witness for C7 amended at an HTTP 200 response with an HTML body. -/
theorem non_json_raises_oauth_error_witness :
    exchange_code_for_token 0 { status_code := 200, body := .nonJSON "<html>login</html>" } =
      .error (.oauthError 200 "Non-JSON response from token endpoint") ∧
    refresh_access_token 0
        (some { access_token := "a", refresh_token := "r", token_type := "Bearer",
                expires_in := 10800, token_expiry := 10800, userid := none, scope := none })
        { status_code := 200, body := .nonJSON "<html>login</html>" } =
      .error (.oauthError 200 "Non-JSON response from token endpoint") :=
  ⟨(non_json_raises_oauth_error 0
      { access_token := "a", refresh_token := "r", token_type := "Bearer",
        expires_in := 10800, token_expiry := 10800, userid := none, scope := none }
      { status_code := 200, body := .nonJSON "<html>login</html>" }
      "<html>login</html>" (by decide) rfl (by decide)).1,
   (non_json_raises_oauth_error 0
      { access_token := "a", refresh_token := "r", token_type := "Bearer",
        expires_in := 10800, token_expiry := 10800, userid := none, scope := none }
      { status_code := 200, body := .nonJSON "<html>login</html>" }
      "<html>login</html>" (by decide) rfl (by decide)).2.1⟩

/-- C3: an exception raised anywhere inside a whole-type fetch is caught
by that fetch, the type's cursor row is rewritten with status 'error',
and the wrapper returns normally, so `fetch_all_data` with every type
enabled is exactly the sequential composition of the three guarded
fetches — a failing type never stops its siblings. -/
theorem fetch_errors_absorbed {ε : Type} (data_type : String) (body : FetchBody ε)
    (st st' : SyncState) (exc : ε) (h : body st = (st', some exc)) :
    fetchGuarded data_type body st = update_sync_state st' data_type none "error" ∧
    (fetchGuarded data_type body st) data_type =
      some { last_data_timestamp := none, status := "error" } ∧
    (∀ (measBody actBody sleepBody : FetchBody ε) (st0 : SyncState),
      fetch_all_data measBody actBody sleepBody true true true st0 =
        fetchGuarded "sleep" sleepBody
          (fetchGuarded "activity" actBody (fetchGuarded "measurements" measBody st0))) := by
  refine ⟨?_, ?_, ?_⟩
  · simp [fetchGuarded, h]
  · simp [fetchGuarded, h, update_sync_state]
  · intro measBody actBody sleepBody st0
    simp [fetch_all_data]

/-- Witness for C3 at a body that throws immediately. -/
theorem fetch_errors_absorbed_witness :
    (fetchGuarded "measurements" (fun st => (st, some ())) emptySyncState) "measurements" =
      some { last_data_timestamp := none, status := "error" } :=
  (fetch_errors_absorbed "measurements" (fun st => (st, some ()))
    emptySyncState emptySyncState () rfl).2.1

/-- C5 counterexample: with a previously persisted cursor
`last_data_timestamp = 5`, a fetch of activity that fetches no records
rewrites the row to `last_data_timestamp = NULL` — not "unchanged from
its previous persisted value". -/
theorem empty_fetch_cursor_counterexample :
    (update_sync_state emptySyncState "activity" (some 5) "success") "activity" =
      some { last_data_timestamp := some 5, status := "success" } ∧
    (finalizeActivity (update_sync_state emptySyncState "activity" (some 5) "success") [])
        "activity" =
      some { last_data_timestamp := none, status := "success" } ∧
    (none : Option Int) ≠ some 5 := by
  exact ⟨rfl, rfl, by decide⟩

/-- C5 amended: a fetch of any data type in which no records are
fetched updates the sync cursor with status 'success' but clears
`last_data_timestamp` to NULL (the `INSERT OR REPLACE` rewrites the
whole row with the default `last_data_timestamp=None`), regardless of
the previously persisted value. -/
theorem empty_fetch_cursor_cleared (st : SyncState) (last_timestamp : Option Int) :
    (finalizeMeasurements st
        { measurements := [], heart_rates := [], last_timestamp := last_timestamp })
        "measurements" =
      some { last_data_timestamp := none, status := "success" } ∧
    (finalizeActivity st []) "activity" =
      some { last_data_timestamp := none, status := "success" } ∧
    (finalizeSleep st []) "sleep" =
      some { last_data_timestamp := none, status := "success" } := by
  refine ⟨?_, ?_, ?_⟩
  · simp [finalizeMeasurements, update_sync_state]
  · simp [finalizeActivity, update_sync_state]
  · simp [finalizeSleep, update_sync_state]

/-- Helper for C4: every continuing pagination step adds a fresh offset
(drawn from the set `S` of offsets the vendor can return) to
`seen_offsets`, so the loop finishes, with a request count bounded by
the unseen offsets plus one, whenever the fuel exceeds that bound. -/
theorem measLoop_total (pages : Nat → MeasuresResult) (store_heart_rate : Bool)
    (S : Finset Nat) (hS : ∀ i o, (pages i).offset = some o → o ∈ S) :
    ∀ (fuel i : Nat) (seen : List Nat) (acc : FetchAcc), seen.Nodup →
      (∀ x ∈ seen, x ∈ S) → S.card - seen.length < fuel →
      ∃ acc' n, measLoop pages store_heart_rate fuel i seen acc = some (acc', n) ∧
        n ≤ i + (S.card - seen.length) + 1 := by
  intro fuel
  induction fuel with
  | zero => intro i seen acc _ _ hlt; omega
  | succ fuel ih =>
    intro i seen acc hnd hsub hlt
    by_cases hmore : (pages i).more = false
    · exact ⟨processGroups store_heart_rate acc (pages i).measuregrps, i + 1,
        by simp [measLoop, hmore], by omega⟩
    · cases hoff : (pages i).offset with
      | none =>
        exact ⟨processGroups store_heart_rate acc (pages i).measuregrps, i + 1,
          by simp [measLoop, hmore, hoff], by omega⟩
      | some o =>
        by_cases hseen : o ∈ seen
        · exact ⟨processGroups store_heart_rate acc (pages i).measuregrps, i + 1,
            by simp [measLoop, hmore, hoff, hseen], by omega⟩
        · have hoS : o ∈ S := hS i o hoff
          have hnd' : (o :: seen).Nodup := List.nodup_cons.mpr ⟨hseen, hnd⟩
          have hsub' : ∀ x ∈ o :: seen, x ∈ S := by
            intro x hx
            rcases List.mem_cons.mp hx with rfl | hx
            · exact hoS
            · exact hsub x hx
          have hlen : seen.length + 1 ≤ S.card := by
            have h1 : (o :: seen).toFinset ⊆ S := by
              intro x hx
              exact hsub' x (List.mem_toFinset.mp hx)
            have h2 : (o :: seen).toFinset.card = (o :: seen).length :=
              List.toFinset_card_of_nodup hnd'
            have h3 := Finset.card_le_card h1
            simp only [h2, List.length_cons] at h3
            omega
          obtain ⟨acc', n, hrun, hn⟩ :=
            ih (i + 1) (o :: seen)
              (processGroups store_heart_rate acc (pages i).measuregrps)
              hnd' hsub' (by simp only [List.length_cons]; omega)
          refine ⟨acc', n, ?_, by simp only [List.length_cons] at hn; omega⟩
          simpa [measLoop, hmore, hoff, hseen] using hrun

/-- C4: the measurement pagination loop always terminates. A response
with `more = true` but a missing offset, or an offset already seen in
this pagination session, stops the loop after the current page instead
of issuing further requests; consequently, whenever every offset the
vendor ever returns lies in a finite set `S`, the loop (given fuel
`S.card + 1`, which it never exhausts) completes with at most
`S.card + 1` requests — one plus the number of distinct offsets. -/
theorem measurement_pagination_bounded (pages : Nat → MeasuresResult)
    (store_heart_rate : Bool) (S : Finset Nat)
    (hS : ∀ i o, (pages i).offset = some o → o ∈ S) :
    (∃ acc n,
      measLoop pages store_heart_rate (S.card + 1) 0 []
          { measurements := [], heart_rates := [], last_timestamp := none } = some (acc, n) ∧
      n ≤ S.card + 1) ∧
    (∀ fuel i seen acc, (pages i).more = true → (pages i).offset = none →
      measLoop pages store_heart_rate (fuel + 1) i seen acc =
        some (processGroups store_heart_rate acc (pages i).measuregrps, i + 1)) ∧
    (∀ fuel i seen acc o, (pages i).more = true → (pages i).offset = some o → o ∈ seen →
      measLoop pages store_heart_rate (fuel + 1) i seen acc =
        some (processGroups store_heart_rate acc (pages i).measuregrps, i + 1)) := by
  refine ⟨?_, ?_, ?_⟩
  · obtain ⟨acc', n, hrun, hn⟩ :=
      measLoop_total pages store_heart_rate S hS (S.card + 1) 0 []
        { measurements := [], heart_rates := [], last_timestamp := none }
        List.nodup_nil (by simp) (by omega)
    exact ⟨acc', n, hrun, by simpa using hn⟩
  · intro fuel i seen acc hmore hoff
    simp [measLoop, hmore, hoff]
  · intro fuel i seen acc o hmore hoff hseen
    simp [measLoop, hmore, hoff, hseen]

/-- Witness for C4 at a vendor that always answers `more = true` with
the repeated offset 0: two requests, within the bound `card {0} + 1`. -/
theorem measurement_pagination_bounded_witness :
    ∃ acc n,
      measLoop (fun _ => { measuregrps := [], more := true, offset := some 0 }) true
          (({0} : Finset Nat).card + 1) 0 []
          { measurements := [], heart_rates := [], last_timestamp := none } = some (acc, n) ∧
      n ≤ ({0} : Finset Nat).card + 1 :=
  (measurement_pagination_bounded (fun _ => { measuregrps := [], more := true, offset := some 0 })
    true {0} (by intro i o h; simp_all)).1

/-- Helper for C8: one measure appends exactly its measurement record. -/
theorem processMeasure_measurements (hr : Bool) (g : MeasureGroup) (m : Measure)
    (acc : FetchAcc) :
    (processMeasure hr g m acc).measurements = acc.measurements ++ [mkMeasurement g m] := by
  by_cases h : hr ∧ m.type = 11 <;> simp [processMeasure, h]

/-- Helper for C8: one measure appends a heart-rate sample exactly when
capture is enabled and the vendor type code is 11. -/
theorem processMeasure_heart_rates (hr : Bool) (g : MeasureGroup) (m : Measure)
    (acc : FetchAcc) :
    (processMeasure hr g m acc).heart_rates =
      if hr ∧ m.type = 11 then acc.heart_rates ++ [mkHeartRate g m]
      else acc.heart_rates := by
  by_cases h : hr ∧ m.type = 11 <;> simp [processMeasure, h]

/-- Helper for C8: the measures loop stages one measurement per measure,
in order. -/
theorem foldl_measures (hr : Bool) (g : MeasureGroup) :
    ∀ (l : List Measure) (acc : FetchAcc),
      (l.foldl (fun a m => processMeasure hr g m a) acc).measurements =
        acc.measurements ++ l.map (mkMeasurement g) := by
  intro l
  induction l with
  | nil => intro acc; simp
  | cons m l ih =>
    intro acc
    simp only [List.foldl_cons, List.map_cons]
    rw [ih, processMeasure_measurements]
    simp

/-- Helper for C8: with capture enabled, the measures loop stages one
heart-rate sample per type-11 measure, in order. -/
theorem foldl_heart_rates_enabled (g : MeasureGroup) :
    ∀ (l : List Measure) (acc : FetchAcc),
      (l.foldl (fun a m => processMeasure true g m a) acc).heart_rates =
        acc.heart_rates ++
          (l.filter (fun m => decide (m.type = 11))).map (mkHeartRate g) := by
  intro l
  induction l with
  | nil => intro acc; simp
  | cons m l ih =>
    intro acc
    simp only [List.foldl_cons]
    rw [ih, processMeasure_heart_rates]
    by_cases h : m.type = 11 <;> simp [h]

/-- Helper for C8: with capture disabled, the measures loop never
touches the heart-rate list. -/
theorem foldl_heart_rates_disabled (g : MeasureGroup) :
    ∀ (l : List Measure) (acc : FetchAcc),
      (l.foldl (fun a m => processMeasure false g m a) acc).heart_rates =
        acc.heart_rates := by
  intro l
  induction l with
  | nil => intro acc; simp
  | cons m l ih =>
    intro acc
    simp only [List.foldl_cons]
    rw [ih, processMeasure_heart_rates]
    simp

/-- Helper for C8: page-level flattening of the staged measurements. -/
theorem processGroups_measurements (hr : Bool) :
    ∀ (gs : List MeasureGroup) (acc : FetchAcc),
      (processGroups hr acc gs).measurements =
        acc.measurements ++ gs.flatMap (fun g => g.measures.map (mkMeasurement g)) := by
  intro gs
  induction gs with
  | nil => intro acc; simp [processGroups]
  | cons g gs ih =>
    intro acc
    simp only [processGroups, List.foldl_cons] at ih ⊢
    rw [ih, processGroup, foldl_measures]
    simp

/-- Helper for C8: page-level flattening of the staged heart rates with
capture enabled. -/
theorem processGroups_heart_rates_enabled :
    ∀ (gs : List MeasureGroup) (acc : FetchAcc),
      (processGroups true acc gs).heart_rates =
        acc.heart_rates ++
          gs.flatMap (fun g =>
            (g.measures.filter (fun m => decide (m.type = 11))).map (mkHeartRate g)) := by
  intro gs
  induction gs with
  | nil => intro acc; simp [processGroups]
  | cons g gs ih =>
    intro acc
    simp only [processGroups, List.foldl_cons] at ih ⊢
    rw [ih, processGroup, foldl_heart_rates_enabled]
    simp

/-- Helper for C8: page-level frame property of the heart-rate list with
capture disabled. -/
theorem processGroups_heart_rates_disabled :
    ∀ (gs : List MeasureGroup) (acc : FetchAcc),
      (processGroups false acc gs).heart_rates = acc.heart_rates := by
  intro gs
  induction gs with
  | nil => intro acc; simp [processGroups]
  | cons g gs ih =>
    intro acc
    simp only [processGroups, List.foldl_cons] at ih ⊢
    rw [ih, processGroup, foldl_heart_rates_disabled]

/-- C8: a measure with the heart-rate vendor type code 11, inside any
group of a page, is staged as a Measurement record, and — exactly when
heart-rate capture is enabled for the call — also as a HeartRateSample
carrying the same timestamp (the group's date), the same exactly scaled
value `value * 10 ^ unit`, and the same device id; with capture
disabled the heart-rate list is untouched. -/
theorem heart_rate_dual_staging (gs : List MeasureGroup) (acc : FetchAcc)
    (g : MeasureGroup) (m : Measure) (hg : g ∈ gs) (hm : m ∈ g.measures)
    (ht : m.type = 11) :
    (mkMeasurement g m ∈ (processGroups true acc gs).measurements ∧
      mkHeartRate g m ∈ (processGroups true acc gs).heart_rates ∧
      (mkHeartRate g m).timestamp = g.date ∧
      (mkMeasurement g m).timestamp = g.date ∧
      (mkHeartRate g m).heart_rate = (m.value : ℚ) * 10 ^ m.unit ∧
      (mkMeasurement g m).value = (m.value : ℚ) * 10 ^ m.unit ∧
      (mkHeartRate g m).device_id = g.deviceid ∧
      (mkMeasurement g m).device_id = g.deviceid) ∧
    (mkMeasurement g m ∈ (processGroups false acc gs).measurements ∧
      (processGroups false acc gs).heart_rates = acc.heart_rates) := by
  have hmem : ∀ hr : Bool, mkMeasurement g m ∈ (processGroups hr acc gs).measurements := by
    intro hr
    rw [processGroups_measurements]
    refine List.mem_append_right _ ?_
    exact List.mem_flatMap.mpr ⟨g, hg, List.mem_map_of_mem _ hm⟩
  refine ⟨⟨hmem true, ?_, rfl, rfl, rfl, rfl, rfl, rfl⟩,
    hmem false, processGroups_heart_rates_disabled gs acc⟩
  rw [processGroups_heart_rates_enabled]
  refine List.mem_append_right _ ?_
  refine List.mem_flatMap.mpr ⟨g, hg, List.mem_map_of_mem _ ?_⟩
  exact List.mem_filter.mpr ⟨hm, by simp [ht]⟩

/-- Witness for C8 at a one-group page holding a single type-11 measure
(60000 with exponent -3, i.e. 60 bpm). -/
theorem heart_rate_dual_staging_witness :
    (mkMeasurement
        { date := 1767225600, deviceid := some "device-1", grpid := none,
          measures := [{ type := 11, value := 60000, unit := -3 }] }
        { type := 11, value := 60000, unit := -3 } ∈
      (processGroups true { measurements := [], heart_rates := [], last_timestamp := none }
        [{ date := 1767225600, deviceid := some "device-1", grpid := none,
           measures := [{ type := 11, value := 60000, unit := -3 }] }]).measurements) ∧
    (mkHeartRate
        { date := 1767225600, deviceid := some "device-1", grpid := none,
          measures := [{ type := 11, value := 60000, unit := -3 }] }
        { type := 11, value := 60000, unit := -3 } ∈
      (processGroups true { measurements := [], heart_rates := [], last_timestamp := none }
        [{ date := 1767225600, deviceid := some "device-1", grpid := none,
           measures := [{ type := 11, value := 60000, unit := -3 }] }]).heart_rates) :=
  ⟨(heart_rate_dual_staging
      [{ date := 1767225600, deviceid := some "device-1", grpid := none,
         measures := [{ type := 11, value := 60000, unit := -3 }] }]
      { measurements := [], heart_rates := [], last_timestamp := none }
      { date := 1767225600, deviceid := some "device-1", grpid := none,
        measures := [{ type := 11, value := 60000, unit := -3 }] }
      { type := 11, value := 60000, unit := -3 }
      (by simp) (by simp) rfl).1.1,
   (heart_rate_dual_staging
      [{ date := 1767225600, deviceid := some "device-1", grpid := none,
         measures := [{ type := 11, value := 60000, unit := -3 }] }]
      { measurements := [], heart_rates := [], last_timestamp := none }
      { date := 1767225600, deviceid := some "device-1", grpid := none,
        measures := [{ type := 11, value := 60000, unit := -3 }] }
      { type := 11, value := 60000, unit := -3 }
      (by simp) (by simp) rfl).1.2.1⟩

/-- Helper for C9/C10: an empty range issues no chunk calls. -/
theorem chunkRanges_nil (current_date end_date : Int) (h : ¬ current_date < end_date) :
    chunkRanges current_date end_date = [] := by
  rw [chunkRanges]
  simp [h]

/-- Helper for C9: a range of exactly `D` days is covered in
`ceil(D / 200) = (D + 199) / 200` chunks, wherever it starts. -/
theorem chunkRanges_length (D : Nat) :
    ∀ s : Int, (chunkRanges s (s + D * 86400)).length = (D + 199) / 200 := by
  induction D using Nat.strong_induction_on with
  | _ D ih =>
    intro s
    by_cases h0 : D = 0
    · subst h0
      rw [chunkRanges_nil s _ (by omega)]
      norm_num
    · have hlt : s < s + (D : Int) * 86400 := by omega
      by_cases h200 : D ≤ 200
      · have hmin : min (s + MAX_DAYS_PER_REQUEST * daySeconds) (s + (D : Int) * 86400) =
            s + (D : Int) * 86400 := by
          simp only [MAX_DAYS_PER_REQUEST, daySeconds]
          omega
        rw [chunkRanges, dif_pos hlt, hmin, chunkRanges_nil _ _ (by omega)]
        simp only [List.length_cons, List.length_nil]
        omega
      · have hmin : min (s + MAX_DAYS_PER_REQUEST * daySeconds) (s + (D : Int) * 86400) =
            s + 17280000 := by
          simp only [MAX_DAYS_PER_REQUEST, daySeconds]
          omega
        have heq : s + (D : Int) * 86400 = (s + 17280000) + ((D - 200 : Nat) : Int) * 86400 := by
          omega
        rw [chunkRanges, dif_pos hlt, hmin, heq]
        simp only [List.length_cons]
        rw [ih (D - 200) (by omega) (s + 17280000)]
        omega

/-- Helper for C9: every chunk is nonempty and spans at most 200 days. -/
theorem chunkRanges_width :
    ∀ current_date end_date : Int, ∀ p ∈ chunkRanges current_date end_date,
      p.1 < p.2 ∧ p.2 - p.1 ≤ 200 * 86400 := by
  have H : ∀ (n : Nat) (c e : Int), (e - c).toNat ≤ n →
      ∀ p ∈ chunkRanges c e, p.1 < p.2 ∧ p.2 - p.1 ≤ 200 * 86400 := by
    intro n
    induction n with
    | zero =>
      intro c e hn p hp
      rw [chunkRanges_nil c e (by omega)] at hp
      cases hp
    | succ n ihn =>
      intro c e hn p hp
      by_cases hlt : c < e
      · rw [chunkRanges, dif_pos hlt] at hp
        rcases List.mem_cons.mp hp with rfl | hp
        · constructor <;> · simp only [MAX_DAYS_PER_REQUEST, daySeconds]; omega
        · refine ihn _ _ ?_ p hp
          simp only [MAX_DAYS_PER_REQUEST, daySeconds] at hp ⊢
          omega
      · rw [chunkRanges_nil c e hlt] at hp
        cases hp
  intro c e p hp
  exact H (e - c).toNat c e le_rfl p hp

/-- C9: a fetch over a range of exactly `D` days issues `ceil(D / 200)`
chunk calls — 3 calls for 450 days — and every chunk spans at most 200
days (the `MAX_DAYS_PER_REQUEST` limit shared by `fetch_activity` and
`fetch_sleep`). -/
theorem chunking_call_count (s e : Int) (D : Nat) (h : e = s + D * 86400) :
    (chunkRanges s e).length = (D + 199) / 200 ∧
    ((450 : Nat) + 199) / 200 = 3 ∧
    (∀ p ∈ chunkRanges s e, p.2 - p.1 ≤ 200 * 86400) := by
  refine ⟨?_, by norm_num, ?_⟩
  · rw [h]
    exact chunkRanges_length D s
  · intro p hp
    exact (chunkRanges_width s e p hp).2

/-- Witness for C9 at a 450-day range starting at the epoch. -/
theorem chunking_call_count_witness :
    (chunkRanges 0 38880000).length = (450 + 199) / 200 ∧
    ((450 : Nat) + 199) / 200 = 3 ∧
    (∀ p ∈ chunkRanges 0 38880000, p.2 - p.1 ≤ 200 * 86400) :=
  chunking_call_count 0 38880000 450 (by norm_num)

/-- Helper for C10: the first chunk of a nonempty chunk list starts at
`current_date`. -/
theorem chunkRanges_head (current_date end_date : Int) (p : Int × Int)
    (h : (chunkRanges current_date end_date).head? = some p) : p.1 = current_date := by
  by_cases hlt : current_date < end_date
  · rw [chunkRanges, dif_pos hlt] at h
    simp only [List.head?_cons, Option.some.injEq] at h
    rw [← h]
  · rw [chunkRanges_nil _ _ hlt] at h
    simp at h

/-- C10: consecutive chunks overlap on their boundary date — the
enddate of chunk N is the very datetime used as the startdate of chunk
N+1 (`current_date = chunk_end`), so the two `%Y-%m-%d` strings sent
for that boundary are equal and every interior boundary day is
requested by two successive API calls. -/
theorem chunk_boundaries_overlap (start_date end_date : Int) :
    List.Chain' (fun p q : Int × Int => p.2 = q.1 ∧ strftime_ymd p.2 = strftime_ymd q.1)
      (chunkRanges start_date end_date) := by
  have H : ∀ (n : Nat) (c e : Int), (e - c).toNat ≤ n →
      List.Chain' (fun p q : Int × Int => p.2 = q.1 ∧ strftime_ymd p.2 = strftime_ymd q.1)
        (chunkRanges c e) := by
    intro n
    induction n with
    | zero =>
      intro c e hn
      rw [chunkRanges_nil c e (by omega)]
      exact List.chain'_nil
    | succ n ihn =>
      intro c e hn
      by_cases hlt : c < e
      · rw [chunkRanges, dif_pos hlt]
        refine List.chain'_cons'.mpr ⟨?_, ?_⟩
        · intro q hq
          have hq1 := chunkRanges_head _ _ q hq
          exact ⟨hq1.symm, by rw [hq1]⟩
        · refine ihn _ _ ?_
          simp only [MAX_DAYS_PER_REQUEST, daySeconds]
          omega
      · rw [chunkRanges_nil c e hlt]
        exact List.chain'_nil
  exact H (end_date - start_date).toNat start_date end_date le_rfl

end WithingsExporter
